import Mathlib

/-!
Verification of the task-manager CRUD application.

The development shallowly embeds the two components of the repository:

* `database.py` — the `SupabaseClient` data access layer.  Each method wraps
  one HTTP call to the Supabase REST endpoint.  The remote endpoint is
  modelled by a `Remote` record of response oracles: each field gives the
  outcome (`Except String body`) of the corresponding REST request, where
  `.error e` stands for a `requests.exceptions.RequestException` (transport
  or non-2xx HTTP failure) carrying message `e`.  Calls to `st.error` are
  modelled by the `List String` component of each method result (the error
  channel); a Python exception propagating out of a method is modelled by
  `Except.error`.  Methods whose Python bodies are a `try/except` that
  returns a default in the handler cannot raise, and are given plain result
  types.

* `streamlit_app.py` — the query-parameter dispatch block.  A request is a
  record of the query parameters the block reads; the output records the
  `st.json` envelopes emitted, the data-access-layer calls performed and
  whether control fell through to the UI branch.  `st.stop()` is modelled
  as immediate termination of the request, per its documentation.

Strings are treated at the level of Unicode code points (`Char.toNat`);
case folding is modelled for the ASCII range, which is the range the
application's string comparisons exercise.
-/

namespace TaskManager

/-- A row of the `tasks` table as it appears in a JSON response body.
`description` and `completed` are nullable/omittable in the JSON and are
therefore `Option`; the access layer never fills them in.  `created_at`
is an abstract timestamp, larger meaning newer. -/
structure Task where
  id : Int
  title : String
  description : Option String
  completed : Option Bool
  created_at : Int
deriving DecidableEq

/-- The JSON body that Supabase returns for a POST/PATCH with
`Prefer: return=representation`: either a list of rows or a single row.
`create_task` and `update_task` accept both shapes
(`created_task[0] if isinstance(created_task, list) else created_task`). -/
inductive RestBody where
  | rows (ts : List Task)
  | single (t : Task)
deriving DecidableEq

/-- The JSON body `{title, description, completed}` sent by the write
operations. -/
structure TaskData where
  title : String
  description : String
  completed : Bool
deriving DecidableEq

/-- Response oracles for the remote Supabase REST endpoint, one per
request shape issued by `SupabaseClient`.  `.error e` models a
`requests` transport/HTTP failure with message `e`. -/
structure Remote where
  listTasks : Except String (List Task)
  getById : Int → Except String (List Task)
  create : TaskData → Except String RestBody
  update : Int → TaskData → Except String RestBody
  delete : Int → Except String Unit
  search : String → Except String (List Task)
  limit1 : Except String (List Task)

/-- The `st.error` message emitted by `_make_request` before re-raising. -/
def dbErrMsg (e : String) : String := "Database request failed: " ++ e

/-- `SupabaseClient.get_all_tasks`: returns the JSON body of
`GET tasks?order=created_at.desc`; on any failure reports the error and
returns `[]` (the `except` handler returns, so the method never raises). -/
def get_all_tasks (r : Remote) : List Task × List String :=
  match r.listTasks with
  | .ok ts => (ts, [])
  | .error e => ([], [dbErrMsg e, "Failed to fetch tasks: " ++ e])

/-- `SupabaseClient.get_task`: `GET tasks?id=eq.<id>`, then
`tasks[0] if tasks else None`; on failure reports the error and returns
`None`. -/
def get_task (r : Remote) (task_id : Int) : Option Task × List String :=
  match r.getById task_id with
  | .ok ts => (ts.head?, [])
  | .error e =>
      (none, [dbErrMsg e, "Failed to fetch task " ++ toString task_id ++ ": " ++ e])

/-- `SupabaseClient.create_task`: `POST tasks` with body
`{title, description, completed: False}`.  On success takes the first row
of a list body (an empty list raises `IndexError`, caught and re-raised);
on failure reports the error and re-raises (`Except.error`). -/
def create_task (r : Remote) (title : String) (description : String) :
    Except String Task × List String :=
  match r.create ⟨title, description, false⟩ with
  | .ok (.rows []) =>
      (.error "list index out of range",
       ["Failed to create task: list index out of range"])
  | .ok (.rows (t :: _)) => (.ok t, [])
  | .ok (.single t) => (.ok t, [])
  | .error e => (.error e, [dbErrMsg e, "Failed to create task: " ++ e])

/-- `SupabaseClient.update_task`: `PATCH tasks?id=eq.<id>` with body
`{title, description, completed}`; same response shaping as create, and a
failure is likewise re-raised. -/
def update_task (r : Remote) (task_id : Int) (title : String)
    (description : String) (completed : Bool) :
    Except String Task × List String :=
  match r.update task_id ⟨title, description, completed⟩ with
  | .ok (.rows []) =>
      (.error "list index out of range",
       ["Failed to update task: list index out of range"])
  | .ok (.rows (t :: _)) => (.ok t, [])
  | .ok (.single t) => (.ok t, [])
  | .error e =>
      (.error e,
       [dbErrMsg e, "Failed to update task " ++ toString task_id ++ ": " ++ e])

/-- `SupabaseClient.delete_task`: `DELETE tasks?id=eq.<id>`; returns `True`
on success and `False` on any failure (the handler returns, so the method
never raises). -/
def delete_task (r : Remote) (task_id : Int) : Bool × List String :=
  match r.delete task_id with
  | .ok _ => (true, [])
  | .error e =>
      (false, [dbErrMsg e, "Failed to delete task " ++ toString task_id ++ ": " ++ e])

/-- The statistics record computed by `get_task_stats`.  The Python
`completion_rate` is a float; it is modelled exactly as a rational. -/
structure TaskStats where
  total : Nat
  completed : Nat
  pending : Nat
  completion_rate : ℚ
deriving DecidableEq

/-- Whether a row counts as completed: `task.get('completed', False)`. -/
def taskCompleted (t : Task) : Bool := t.completed.getD false

/-- `SupabaseClient.get_task_stats`: derives the stats from
`get_all_tasks()` (which never raises, so the surrounding `except` is
unreachable); a remote failure therefore yields the all-zero record via
the empty list. -/
def get_task_stats (r : Remote) : TaskStats × List String :=
  let res := get_all_tasks r
  let total := res.1.length
  let completed := res.1.countP taskCompleted
  (⟨total, completed, total - completed,
    if 0 < total then (completed : ℚ) / (total : ℚ) * 100 else 0⟩, res.2)

/-- `SupabaseClient.search_tasks`: returns the JSON body of
`GET tasks?or=(title.ilike.*<q>*,description.ilike.*<q>*)&order=created_at.desc`;
on failure reports the error and returns `[]`. -/
def search_tasks (r : Remote) (query : String) : List Task × List String :=
  match r.search query with
  | .ok ts => (ts, [])
  | .error e => ([], [dbErrMsg e, "Failed to search tasks: " ++ e])

/-- `SupabaseClient.test_connection`: `GET tasks?limit=1`, boolean result. -/
def test_connection (r : Remote) : Bool × List String :=
  match r.limit1 with
  | .ok _ => (true, [])
  | .error e => (false, [dbErrMsg e, "Database connection test failed: " ++ e])

/-- Python white space accepted by `int(str)` around the literal
(ASCII range). -/
def isPySpace (c : Char) : Bool :=
  c == ' ' || c == '\t' || c == '\n' || c == '\r' || c == '\x0b' || c == '\x0c'

/-- Digit run of a Python integer literal: digits with single underscores
allowed only between digits. Returns the value, or `none` if malformed. -/
def pyDigits : Nat → List Char → Option Nat
  | acc, [] => some acc
  | acc, '_' :: c :: cs =>
      if c.isDigit then pyDigits (acc * 10 + (c.toNat - 48)) cs else none
  | _, ['_'] => none
  | acc, c :: cs =>
      if c.isDigit then pyDigits (acc * 10 + (c.toNat - 48)) cs else none

/-- The body of a Python integer literal after stripping: optional sign
followed by a nonempty digit run. -/
def pySignedDigits : List Char → Option Int
  | [] => none
  | '+' :: cs =>
      match cs with
      | [] => none
      | c :: cs2 =>
          if c.isDigit then (pyDigits (c.toNat - 48) cs2).map (Int.ofNat) else none
  | '-' :: cs =>
      match cs with
      | [] => none
      | c :: cs2 =>
          if c.isDigit then (pyDigits (c.toNat - 48) cs2).map (fun n => -(n : Int))
          else none
  | c :: cs =>
      if c.isDigit then (pyDigits (c.toNat - 48) cs).map (Int.ofNat) else none

/-- Python `int(s)` (ASCII range): strip surrounding white space, then an
optional sign and a digit run; anything else raises `ValueError`. -/
def pyInt (s : String) : Except String Int :=
  let core := ((s.toList.dropWhile isPySpace).reverse.dropWhile isPySpace).reverse
  match pySignedDigits core with
  | some n => .ok n
  | none => .error ("invalid literal for int with base 10: " ++ s)

/-- ASCII case folding on a Unicode code point, as performed by Python
`str.lower` and by SQL `ILIKE` on the ASCII range: code points 65–90
(`A`–`Z`) shift to 97–122, everything else is fixed. -/
def lowerCode (n : Nat) : Nat := if 65 ≤ n ∧ n ≤ 90 then n + 32 else n

/-- The code points of a string. -/
def strCodes (s : String) : List Nat := s.toList.map Char.toNat

/-- The case-folded code points of a string. -/
def lowerCodes (s : String) : List Nat := (strCodes s).map lowerCode

/-- Whether `f` accepts some suffix of the target (including the target
itself and the empty suffix). -/
def likeSuffixAny (f : List Nat → Bool) : List Nat → Bool
  | [] => f []
  | c :: s => f (c :: s) || likeSuffixAny f s

/-- SQL `LIKE` pattern matching over code points: `37` (`%`) matches any
sequence, `95` (`_`) matches exactly one code point, anything else
matches itself. -/
def likeMatch : List Nat → List Nat → Bool
  | [], s => s.isEmpty
  | c :: p, s =>
      if c = 37 then likeSuffixAny (likeMatch p) s
      else
        match s with
        | [] => false
        | c2 :: s2 => decide (c = 95 ∨ c = c2) && likeMatch p s2

/-- The PostgREST rewrite of an `ilike` value into a SQL pattern: every
star, code point 42, becomes the `%` wildcard, code point 37.  The
rewrite applies to the whole received value, stars inside the
interpolated query included. -/
def starToPct (n : Nat) : Nat := if n = 42 then 37 else n

/-- The SQL pattern code points that the remote derives from an `ilike`
value: every `*` rewritten to `%` by PostgREST, then case-folded by
`ILIKE`. -/
def pctCodes (v : String) : List Nat :=
  (strCodes v).map (fun n => lowerCode (starToPct n))

/-- The `ilike.*<q>*` filter that `search_tasks` asks the remote database
to apply to a column: the sent value is `*` ++ `q` ++ `*`, PostgREST
rewrites every `*` in it to `%`, and `ILIKE` case-folds both pattern and
target — any `%`/`_`/`*` inside `q` stays live as a wildcard (the query
is interpolated into the value unescaped). -/
def ilikeMatches (q s : String) : Bool :=
  likeMatch (pctCodes ("*" ++ q ++ "*")) (lowerCodes s)

/-- The row filter of the search request: title matches, or description
is non-null and matches (SQL `NULL ilike p` is not true). -/
def taskMatchesQuery (q : String) (t : Task) : Bool :=
  ilikeMatches q t.title ||
    (match t.description with
     | some d => ilikeMatches q d
     | none => false)

/-- Case-insensitive substring containment, the relation the specification
ascribes to search: the folded code points of `q` occur contiguously in
the folded code points of `s`. -/
def ciContains (q s : String) : Prop := lowerCodes q <:+: lowerCodes s

instance (q s : String) : Decidable (ciContains q s) :=
  List.decidableInfix _ _

/-- The specification predicate for a search hit: title or description
(absent read as empty) case-insensitively contains the query. -/
def claimMatches (q : String) (t : Task) : Bool :=
  decide (ciContains q t.title) || decide (ciContains q (t.description.getD ""))

/-- Whether `q` contains a character with non-literal meaning in the
search request: a SQL `LIKE` wildcard (`%`, `_`), a star (rewritten to
`%` by PostgREST), or a metacharacter of the `or=(...)` filter grammar
(comma, parentheses). -/
def hasMetachar (q : String) : Bool :=
  q.toList.any (fun c =>
    c == '%' || c == '_' || c == '*' || c == ',' || c == '(' || c == ')')

/-- The ordering relation requested by `order=created_at.desc`: newest
(largest timestamp) first. -/
def newerFirst (a b : Task) : Prop := b.created_at ≤ a.created_at

instance : DecidableRel newerFirst := fun a b => Int.decLe b.created_at a.created_at

instance : IsTotal Task newerFirst := ⟨fun a b => le_total b.created_at a.created_at⟩

instance : IsTrans Task newerFirst := ⟨fun _ _ _ h1 h2 => le_trans h2 h1⟩

/-- Response ordering requested by `order=created_at.desc`. -/
def sortDesc (l : List Task) : List Task := l.insertionSort newerFirst

/-- A remote endpoint faithfully serving a fixed table state `store`,
per the PostgREST semantics of the exact requests the client issues:
`order=created_at.desc` sorts newest first, `id=eq.<id>` filters by
equality, the search request filters by the two `ilike` patterns. -/
def remoteOfStore (store : List Task) : Remote where
  listTasks := .ok (sortDesc store)
  getById := fun i => .ok (store.filter (fun t => t.id == i))
  create := fun d => .ok (.single ⟨0, d.title, some d.description, some d.completed, 0⟩)
  update := fun i d => .ok (.rows (store.filter (fun t => t.id == i) |>.map
      (fun t => { t with title := d.title, description := some d.description,
                         completed := some d.completed })))
  delete := fun _ => .ok ()
  search := fun q => .ok (sortDesc (store.filter (taskMatchesQuery q)))
  limit1 := .ok (store.take 1)

/-- A remote endpoint on which every request fails with message `e`. -/
def failRemote (e : String) : Remote where
  listTasks := .error e
  getById := fun _ => .error e
  create := fun _ => .error e
  update := fun _ _ => .error e
  delete := fun _ => .error e
  search := fun _ => .error e
  limit1 := .error e

/-- A remote endpoint answering every read with the same fixed JSON body
`body` (used to exhibit pass-through of un-normalized rows). -/
def bodyRemote (body : List Task) : Remote where
  listTasks := .ok body
  getById := fun _ => .ok body
  create := fun _ => .ok (.rows body)
  update := fun _ _ => .ok (.rows body)
  delete := fun _ => .ok ()
  search := fun _ => .ok body
  limit1 := .ok body

/-- The query parameters read by the dispatch block, each the first value
of the parameter when present (`query_params.get(k, [default])[0]`). -/
structure Request where
  api : Option String
  id : Option String
  title : Option String
  description : Option String
  completed : Option String
deriving DecidableEq

/-- Python truthiness of an optional string parameter: `None` and the
empty string are falsy. -/
def truthy : Option String → Bool
  | none => false
  | some s => !s.isEmpty

/-- Payload of the `data` field of a dispatch envelope. -/
inductive EnvData where
  | tasks (ts : List Task)
  | task (t : Option Task)
  | one (t : Task)
deriving DecidableEq

/-- One `st.json` response: the envelope with its `status`, optional
`data`, optional `message` and (for `health`) optional `timestamp`. -/
structure Envelope where
  status : String
  data : Option EnvData
  message : Option String
  timestamp : Option String
deriving DecidableEq

/-- A call into the data access layer performed by the dispatch block. -/
inductive DbCall where
  | getAll
  | getById (id : Int)
  | create (title description : String)
  | update (id : Int) (title description : String) (completed : Bool)
  | delete (id : Int)
deriving DecidableEq

/-- Observable outcome of one scripted request: the envelopes emitted via
`st.json`, the data-access-layer calls made, and whether the UI branch
(the `else` of `if 'api' in query_params`) ran. -/
structure DispatchOut where
  emitted : List Envelope
  calls : List DbCall
  ui : Bool
deriving DecidableEq

/-- An error envelope `{"status": "error", "message": m}`. -/
def errEnv (m : String) : Envelope := ⟨"error", none, some m, none⟩

/-- A dispatch outcome that only emits one error envelope. -/
def errOut (m : String) : DispatchOut := ⟨[errEnv m], [], false⟩

/-- Interpretation of the optional `completed` parameter on the
`update_task` route: `query_params.get('completed', ['false'])[0].lower()
== 'true'`, compared at lowered code-point level (ASCII case folding). -/
def parseCompleted (v : Option String) : Bool :=
  lowerCodes (v.getD "false") == lowerCodes "true"

/-- The six operation names routed by the dispatch block. -/
def knownOps : List String :=
  ["tasks", "task", "create_task", "update_task", "delete_task", "health"]

/-- The dispatch block of `streamlit_app.py`: routes on the `api` query
parameter; absent `api` falls through to the UI branch, an unrecognized
value matches no route and emits nothing. -/
def apiDispatch (r : Remote) (now : String) (req : Request) : DispatchOut :=
  match req.api with
  | none => ⟨[], [], true⟩
  | some ep =>
    if ep = "tasks" then
      ⟨[⟨"success", some (.tasks (get_all_tasks r).1), none, none⟩], [.getAll], false⟩
    else if ep = "task" then
      match req.id with
      | none => errOut "Task ID required"
      | some s =>
        if s.isEmpty then errOut "Task ID required"
        else
          match pyInt s with
          | .error m => errOut m
          | .ok n =>
              ⟨[⟨"success", some (.task (get_task r n).1), none, none⟩],
               [.getById n], false⟩
    else if ep = "create_task" then
      match req.title with
      | none => errOut "Title is required"
      | some t =>
        if t.isEmpty then errOut "Title is required"
        else
          let d := req.description.getD ""
          match create_task r t d with
          | (.ok task, _) =>
              ⟨[⟨"success", some (.one task), some "Task created successfully", none⟩],
               [.create t d], false⟩
          | (.error m, _) => ⟨[errEnv m], [.create t d], false⟩
    else if ep = "update_task" then
      let c := parseCompleted req.completed
      let d := req.description.getD ""
      if truthy req.id && truthy req.title then
        match req.id, req.title with
        | some s, some t =>
            (match pyInt s with
             | .error m => errOut m
             | .ok n =>
                 match update_task r n t d c with
                 | (.ok task, _) =>
                     ⟨[⟨"success", some (.one task),
                        some "Task updated successfully", none⟩],
                      [.update n t d c], false⟩
                 | (.error m, _) => ⟨[errEnv m], [.update n t d c], false⟩)
        | _, _ => errOut "Task ID and title are required"
      else errOut "Task ID and title are required"
    else if ep = "delete_task" then
      match req.id with
      | none => errOut "Task ID required"
      | some s =>
        if s.isEmpty then errOut "Task ID required"
        else
          match pyInt s with
          | .error m => errOut m
          | .ok n =>
              if (delete_task r n).1 then
                ⟨[⟨"success", none, some "Task deleted successfully", none⟩],
                 [.delete n], false⟩
              else ⟨[errEnv "Failed to delete task"], [.delete n], false⟩
    else if ep = "health" then
      ⟨[⟨"success", none, some "API is running", some now⟩], [], false⟩
    else ⟨[], [], false⟩

/-! ## Sample data used to instantiate the theorems -/

/-- A two-row store: one completed task, one pending, the second newer. -/
def sampleStore : List Task :=
  [⟨1, "a", none, some true, 5⟩, ⟨2, "b", none, some false, 9⟩]

/-- A raw JSON row whose `completed` key is absent. -/
def rawTask : Task := ⟨1, "t", some "", none, 0⟩

/-! ## Theorems -/

/-- Unfolding of `get_task_stats` into its four fields. -/
theorem get_task_stats_eq (r : Remote) :
    (get_task_stats r).1 =
      ⟨(get_all_tasks r).1.length, (get_all_tasks r).1.countP taskCompleted,
       (get_all_tasks r).1.length - (get_all_tasks r).1.countP taskCompleted,
       if 0 < (get_all_tasks r).1.length then
         ((get_all_tasks r).1.countP taskCompleted : ℚ) /
           ((get_all_tasks r).1.length : ℚ) * 100
       else 0⟩ := rfl

/-- C1: for every transport or HTTP failure of the remote call, the read
operations `get_all_tasks` and `search_tasks` return an empty list (and
`get_task_stats` returns zeroed stats) without raising, while the write
operations `create_task` and `update_task` re-raise the failure to the
caller. -/
theorem c1_read_write_error_asymmetry (r : Remote) (e : String) :
    (r.listTasks = .error e →
      (get_all_tasks r).1 = [] ∧ (get_task_stats r).1 = ⟨0, 0, 0, 0⟩) ∧
    (∀ q, r.search q = .error e → (search_tasks r q).1 = []) ∧
    (∀ t d, r.create ⟨t, d, false⟩ = .error e →
      (create_task r t d).1 = .error e) ∧
    (∀ i t d c, r.update i ⟨t, d, c⟩ = .error e →
      (update_task r i t d c).1 = .error e) := by
  refine ⟨fun h => ⟨?_, ?_⟩, fun q h => ?_, fun t d h => ?_, fun i t d c h => ?_⟩
  · simp [get_all_tasks, h]
  · rw [get_task_stats_eq]
    simp [get_all_tasks, h]
  · simp [search_tasks, h]
  · simp [create_task, h]
  · simp [update_task, h]

/-- Witness for C1 at a concretely failing remote. -/
theorem c1_witness :
    (get_all_tasks (failRemote "boom")).1 = [] ∧
    (get_task_stats (failRemote "boom")).1 = ⟨0, 0, 0, 0⟩ ∧
    (search_tasks (failRemote "boom") "q").1 = [] ∧
    (create_task (failRemote "boom") "t" "d").1 = .error "boom" ∧
    (update_task (failRemote "boom") 1 "t" "d" true).1 = .error "boom" := by
  obtain ⟨h1, h2, h3, h4⟩ := c1_read_write_error_asymmetry (failRemote "boom") "boom"
  exact ⟨(h1 rfl).1, (h1 rfl).2, h2 "q" rfl, h3 "t" "d" rfl, h4 1 "t" "d" true rfl⟩

/-- C2: the statistics record always satisfies `total = completed + pending`,
with `completion_rate = 0` when `total = 0` and
`completion_rate = completed / total * 100` otherwise; on remote failure the
record is all zero. -/
theorem c2_stats_invariant (r : Remote) :
    (get_task_stats r).1.total =
      (get_task_stats r).1.completed + (get_task_stats r).1.pending ∧
    ((get_task_stats r).1.total = 0 → (get_task_stats r).1.completion_rate = 0) ∧
    (0 < (get_task_stats r).1.total →
      (get_task_stats r).1.completion_rate =
        ((get_task_stats r).1.completed : ℚ) / ((get_task_stats r).1.total : ℚ) * 100) ∧
    (∀ e, r.listTasks = .error e → (get_task_stats r).1 = ⟨0, 0, 0, 0⟩) := by
  have hle : (get_all_tasks r).1.countP taskCompleted ≤ (get_all_tasks r).1.length :=
    List.countP_le_length _
  rw [get_task_stats_eq]
  refine ⟨by simp; omega, fun h => ?_, fun h => ?_, fun e he => ?_⟩
  · simp only at h
    simp [h]
  · simp only at h
    simp [h]
  · simp [get_all_tasks, he]

/-- Witness for C2: a store with one completed task out of two yields a
50 percent rate, and a failing remote yields the zero record. -/
theorem c2_witness :
    (get_task_stats (remoteOfStore sampleStore)).1.completion_rate = 50 ∧
    (get_task_stats (failRemote "e")).1 = ⟨0, 0, 0, 0⟩ := by
  constructor
  · have h := (c2_stats_invariant (remoteOfStore sampleStore)).2.2.1 (by decide)
    have hc : (get_task_stats (remoteOfStore sampleStore)).1.completed = 1 := rfl
    have ht : (get_task_stats (remoteOfStore sampleStore)).1.total = 2 := rfl
    rw [h, hc, ht]
    norm_num
  · exact (c2_stats_invariant (failRemote "e")).2.2.2 "e" rfl

/-- C5: `get_task` yields one of three mutually distinguishable outcomes —
the first row of the equality-filtered response with a silent error channel,
an absence signal with a silent error channel, or absence accompanied by
reported errors when the remote call fails; against a store-backed remote
the result is the first stored task matching the id. -/
theorem c5_get_task_outcomes (r : Remote) (i : Int) :
    ((∃ t rest, r.getById i = .ok (t :: rest) ∧ get_task r i = (some t, [])) ∨
     (r.getById i = .ok [] ∧ get_task r i = (none, [])) ∨
     (∃ e, r.getById i = .error e ∧
        get_task r i =
          (none, [dbErrMsg e, "Failed to fetch task " ++ toString i ++ ": " ++ e]))) ∧
    (∀ store j,
      (get_task (remoteOfStore store) j).1 =
        (store.filter (fun t => t.id == j)).head?) := by
  constructor
  · cases h : r.getById i with
    | ok ts =>
      cases ts with
      | nil => exact Or.inr (Or.inl ⟨rfl, by simp [get_task, h]⟩)
      | cons t rest => exact Or.inl ⟨t, rest, rfl, by simp [get_task, h]⟩
    | error e => exact Or.inr (Or.inr ⟨e, rfl, by simp [get_task, h]⟩)
  · intro store j
    simp [get_task, remoteOfStore]

/-- C6: a dispatch request for `create_task` whose `title` parameter is
absent or empty emits exactly one error envelope and performs no data
access call at all, so the store is unchanged. -/
theorem c6_create_task_requires_title (r : Remote) (now : String) (req : Request)
    (hapi : req.api = some "create_task")
    (htitle : req.title = none ∨ req.title = some "") :
    (apiDispatch r now req).emitted = [errEnv "Title is required"] ∧
    (apiDispatch r now req).calls = [] := by
  obtain ⟨api, id, title, de, co⟩ := req
  simp only at hapi
  subst hapi
  rcases htitle with h | h <;> simp only at h <;> subst h <;>
    simp [apiDispatch, errOut, show ("" : String).isEmpty = true from rfl]

/-- Witness for C6 at a concrete title-less request. -/
theorem c6_witness :
    (apiDispatch (failRemote "e") "ts"
      ⟨some "create_task", none, none, some "d", none⟩).emitted =
        [errEnv "Title is required"] ∧
    (apiDispatch (failRemote "e") "ts"
      ⟨some "create_task", none, none, some "d", none⟩).calls = [] :=
  c6_create_task_requires_title (failRemote "e") "ts"
    ⟨some "create_task", none, none, some "d", none⟩ rfl (Or.inl rfl)

/-- C8: `delete_task` returns a boolean and never raises — `true` exactly
when the remote delete succeeded, `false` on any failure. -/
theorem c8_delete_task_boolean (r : Remote) (i : Int) :
    ((delete_task r i).1 = true ↔ r.delete i = .ok ()) ∧
    (∀ e, r.delete i = .error e → (delete_task r i).1 = false) := by
  cases h : r.delete i with
  | ok u =>
    cases u
    simp [delete_task, h]
  | error e => simp [delete_task, h]

/-- Witness for C8: success and failure at concrete remotes. -/
theorem c8_witness :
    (delete_task (bodyRemote []) 5).1 = true ∧
    (delete_task (failRemote "x") 5).1 = false :=
  ⟨(c8_delete_task_boolean (bodyRemote []) 5).1.mpr rfl,
   (c8_delete_task_boolean (failRemote "x") 5).2 "x" rfl⟩

/-- C7 fails on the code: the access layer performs no normalization, so a
remote row whose `completed` key is absent is returned verbatim by
`get_all_tasks` with the field still absent. -/
theorem c7_counterexample :
    ¬ (∀ (r : Remote) (t : Task),
        t ∈ (get_all_tasks r).1 → t.completed.isSome = true) := by
  intro h
  have := h (bodyRemote [rawTask]) rawTask (by simp [get_all_tasks, bodyRemote])
  simp [rawTask] at this

/-- C7 amended: the read operations return the remote JSON rows verbatim —
in particular a row may lack the `completed` field — and the consumer
(`get_task_stats`) reads an absent `completed` as `false` via
`task.get('completed', False)`. -/
theorem c7_read_passthrough (r : Remote) :
    (∀ body, r.listTasks = .ok body → (get_all_tasks r).1 = body) ∧
    (∀ i body, r.getById i = .ok body → (get_task r i).1 = body.head?) ∧
    (∀ q body, r.search q = .ok body → (search_tasks r q).1 = body) ∧
    (get_task_stats r).1.completed = (get_all_tasks r).1.countP taskCompleted := by
  refine ⟨fun b h => ?_, fun i b h => ?_, fun q b h => ?_, rfl⟩
  · simp [get_all_tasks, h]
  · simp [get_task, h]
  · simp [search_tasks, h]

/-- Witness for C7 at the remote returning the completed-less row. -/
theorem c7_witness :
    (get_all_tasks (bodyRemote [rawTask])).1 = [rawTask] ∧
    (get_task (bodyRemote [rawTask]) 1).1 = some rawTask ∧
    (search_tasks (bodyRemote [rawTask]) "q").1 = [rawTask] := by
  obtain ⟨h1, h2, h3, -⟩ := c7_read_passthrough (bodyRemote [rawTask])
  exact ⟨h1 [rawTask] rfl, h2 1 [rawTask] rfl, h3 "q" [rawTask] rfl⟩

/-- A request whose `api` parameter matches none of the six routes. -/
def unknownReq : Request := ⟨some "frobnicate", none, none, none, none⟩

/-- C3 fails on the code: a request whose `api` value is outside the six
known operation names matches no branch of the dispatch chain, so no JSON
envelope at all is emitted (the claim demands one). -/
theorem c3_counterexample :
    ¬ ((∃ env, (apiDispatch (failRemote "e") "ts" unknownReq).emitted = [env] ∧
          (env.status = "success" ∨ env.status = "error")) ∧
       (apiDispatch (failRemote "e") "ts" unknownReq).ui = false) := by
  rintro ⟨⟨env, henv, -⟩, -⟩
  have h : (apiDispatch (failRemote "e") "ts" unknownReq).emitted = [] := rfl
  rw [h] at henv
  cases henv

/-- C3 amended: every request carrying the `api` parameter bypasses UI
rendering; when the value is one of the six known operation names, exactly
one well-formed envelope with status `success` or `error` is emitted — an
unknown value emits no response at all. -/
theorem c3_dispatch_envelope (r : Remote) (now : String) (req : Request)
    (ep : String) (hapi : req.api = some ep) :
    (apiDispatch r now req).ui = false ∧
    (ep ∈ knownOps →
      ∃ env, (apiDispatch r now req).emitted = [env] ∧
        (env.status = "success" ∨ env.status = "error")) := by
  obtain ⟨api, id, title, de, co⟩ := req
  simp only at hapi
  subst hapi
  constructor
  · simp only [apiDispatch]
    repeat' split
    all_goals rfl
  · intro hmem
    simp only [apiDispatch]
    repeat' split
    all_goals try exact ⟨_, rfl, Or.inl rfl⟩
    all_goals try exact ⟨_, rfl, Or.inr rfl⟩
    · simp only [knownOps, List.mem_cons, List.not_mem_nil, or_false] at hmem
      tauto

/-- Witness for C3 at the `tasks` route of a failing remote. -/
theorem c3_witness :
    (apiDispatch (failRemote "e") "ts" ⟨some "tasks", none, none, none, none⟩).ui
      = false ∧
    ∃ env,
      (apiDispatch (failRemote "e") "ts"
        ⟨some "tasks", none, none, none, none⟩).emitted = [env] ∧
      (env.status = "success" ∨ env.status = "error") := by
  obtain ⟨h1, h2⟩ := c3_dispatch_envelope (failRemote "e") "ts"
    ⟨some "tasks", none, none, none, none⟩ "tasks" rfl
  exact ⟨h1, h2 (by simp [knownOps])⟩

/-- C9: on the `task`, `update_task` and `delete_task` routes, a present
`id` parameter that is not a well-formed integer yields exactly one error
envelope — the conversion error is caught, the request does not crash. -/
theorem c9_malformed_id_error_envelope (r : Remote) (now : String)
    (req : Request) (ep s m : String)
    (hep : ep = "task" ∨ ep = "update_task" ∨ ep = "delete_task")
    (hapi : req.api = some ep) (hid : req.id = some s)
    (hm : pyInt s = .error m) :
    ∃ env, (apiDispatch r now req).emitted = [env] ∧ env.status = "error" := by
  obtain ⟨api, id, title, de, co⟩ := req
  simp only at hapi hid
  subst hapi
  subst hid
  rcases hep with rfl | rfl | rfl <;>
    · simp only [apiDispatch]
      repeat' split
      all_goals first
        | exact ⟨_, rfl, rfl⟩
        | simp_all

/-- Witness for C9 at a concrete non-numeric id. -/
theorem c9_witness :
    ∃ env,
      (apiDispatch (failRemote "e") "ts"
        ⟨some "task", some "abc", none, none, none⟩).emitted = [env] ∧
      env.status = "error" :=
  c9_malformed_id_error_envelope (failRemote "e") "ts"
    ⟨some "task", some "abc", none, none, none⟩ "task" "abc"
    ("invalid literal for int with base 10: abc") (Or.inl rfl) rfl rfl rfl

/-- The empty pattern followed by `%` accepts some suffix of anything. -/
theorem likeSuffixAny_empty (s : List Nat) :
    likeSuffixAny (likeMatch []) s = true := by
  induction s with
  | nil => rfl
  | cons c s ih => simp [likeSuffixAny, ih]

/-- Acceptance of some suffix, as an existential. -/
theorem likeSuffixAny_iff (f : List Nat → Bool) (s : List Nat) :
    likeSuffixAny f s = true ↔ ∃ t, t <:+ s ∧ f t = true := by
  induction s with
  | nil => simp [likeSuffixAny, List.suffix_nil]
  | cons c s ih =>
    simp only [likeSuffixAny, Bool.or_eq_true, ih]
    constructor
    · rintro (hm | ⟨t, ht, hm⟩)
      · exact ⟨c :: s, List.suffix_rfl, hm⟩
      · exact ⟨t, ht.trans (List.suffix_cons c s), hm⟩
    · rintro ⟨t, ht, hm⟩
      rcases List.suffix_cons_iff.mp ht with rfl | ht
      · exact Or.inl hm
      · exact Or.inr ⟨t, ht, hm⟩

/-- A single `%` matches every target. -/
theorem likeMatch_wild (s : List Nat) : likeMatch [37] s = true := by
  have h : likeMatch [37] s = likeSuffixAny (likeMatch []) s := by simp [likeMatch]
  rw [h]
  exact likeSuffixAny_empty s

/-- A wildcard-free pattern followed by `%` matches exactly the targets it
prefixes. -/
theorem likeMatch_literal : ∀ (p : List Nat), 37 ∉ p → 95 ∉ p →
    ∀ s, (likeMatch (p ++ [37]) s = true ↔ p <+: s) := by
  intro p
  induction p with
  | nil =>
    intro _ _ s
    simp [likeMatch_wild s]
  | cons c p ih =>
    intro hp37 hp95 s
    have hc37 : c ≠ 37 := fun h => hp37 (h ▸ List.mem_cons_self _ _)
    have hc95 : c ≠ 95 := fun h => hp95 (h ▸ List.mem_cons_self _ _)
    have hp37' : 37 ∉ p := fun h => hp37 (List.mem_cons_of_mem _ h)
    have hp95' : 95 ∉ p := fun h => hp95 (List.mem_cons_of_mem _ h)
    cases s with
    | nil => simp [likeMatch, hc37]
    | cons c2 s =>
      simp only [List.cons_append, likeMatch, if_neg hc37, Bool.and_eq_true,
        decide_eq_true_eq, List.cons_prefix_cons]
      constructor
      · rintro ⟨h95 | hcc, hm⟩
        · exact absurd h95 hc95
        · exact ⟨hcc, (ih hp37' hp95' s).mp hm⟩
      · rintro ⟨rfl, hpre⟩
        exact ⟨Or.inr rfl, (ih hp37' hp95' s).mpr hpre⟩

/-- A pattern headed by `%` matches a target exactly when the rest of the
pattern matches some suffix of the target. -/
theorem likeMatch_pct (p s : List Nat) :
    likeMatch (37 :: p) s = true ↔ ∃ t, t <:+ s ∧ likeMatch p t = true := by
  have h : likeMatch (37 :: p) s = likeSuffixAny (likeMatch p) s := by
    simp [likeMatch]
  rw [h, likeSuffixAny_iff]

/-- For a wildcard-free `q`, the pattern `%q%` matches exactly the targets
containing `q` contiguously. -/
theorem likeMatch_contains (q s : List Nat) (h37 : 37 ∉ q) (h95 : 95 ∉ q) :
    likeMatch (37 :: (q ++ [37])) s = true ↔ q <:+: s := by
  rw [likeMatch_pct]
  constructor
  · rintro ⟨t, ht, hm⟩
    exact List.infix_iff_prefix_suffix.mpr ⟨t, (likeMatch_literal q h37 h95 t).mp hm, ht⟩
  · intro h
    obtain ⟨t, hpre, hsuf⟩ := List.infix_iff_prefix_suffix.mp h
    exact ⟨t, hsuf, (likeMatch_literal q h37 h95 t).mpr hpre⟩

/-- Case folding creates no `%`. -/
theorem lowerCode_eq_37 {n : Nat} : lowerCode n = 37 ↔ n = 37 := by
  unfold lowerCode
  split <;> omega

/-- Case folding creates no `_`. -/
theorem lowerCode_eq_95 {n : Nat} : lowerCode n = 95 ↔ n = 95 := by
  unfold lowerCode
  split <;> omega

/-- A query string without `%` and `_` has no wildcard code points after
folding. -/
theorem no_wildcard_codes (q : String) (hq : hasMetachar q = false) :
    37 ∉ lowerCodes q ∧ 95 ∉ lowerCodes q := by
  rw [hasMetachar, List.any_eq_false] at hq
  constructor
  · intro hmem
    simp only [lowerCodes, strCodes, List.map_map, List.mem_map,
      Function.comp_apply] at hmem
    obtain ⟨c, hc, heq⟩ := hmem
    rw [lowerCode_eq_37] at heq
    have hcp : c = '%' := Char.eq_of_val_eq (UInt32.toNat.inj heq)
    have := hq c hc
    simp [hcp] at this
  · intro hmem
    simp only [lowerCodes, strCodes, List.map_map, List.mem_map,
      Function.comp_apply] at hmem
    obtain ⟨c, hc, heq⟩ := hmem
    rw [lowerCode_eq_95] at heq
    have hcu : c = '_' := Char.eq_of_val_eq (UInt32.toNat.inj heq)
    have := hq c hc
    simp [hcu] at this

/-- The pattern sent for query `q`: a leading and a trailing `%` around
the rewritten, folded query codes. -/
theorem pctCodes_star (q : String) :
    pctCodes ("*" ++ q ++ "*") = 37 :: (pctCodes q ++ [37]) := by
  have h : ("*" ++ q ++ "*").toList = '*' :: (q.toList ++ ['*']) := by
    show (("*" ++ q) ++ "*").data = '*' :: (q.data ++ ['*'])
    rw [String.data_append, String.data_append]
    rfl
  simp [pctCodes, strCodes, h, starToPct, lowerCode]

/-- On a query without metacharacters the PostgREST star rewrite is the
identity, so the pattern codes are just the folded query codes. -/
theorem pctCodes_eq_lowerCodes (q : String) (hq : hasMetachar q = false) :
    pctCodes q = lowerCodes q := by
  rw [hasMetachar, List.any_eq_false] at hq
  simp only [pctCodes, lowerCodes, strCodes, List.map_map]
  apply List.map_congr_left
  intro c hc
  have hnotstar : c ≠ '*' := by
    have := hq c hc
    simp only [Bool.or_eq_true, beq_iff_eq] at this
    tauto
  simp only [Function.comp_apply]
  congr 1
  rw [starToPct, if_neg]
  intro h42
  exact hnotstar (Char.eq_of_val_eq (UInt32.toNat.inj h42))

/-- For a metacharacter-free query, the `ilike.*q*` filter is exactly
case-insensitive substring containment. -/
theorem ilikeMatches_iff (q s : String) (hq : hasMetachar q = false) :
    (ilikeMatches q s = true ↔ ciContains q s) := by
  obtain ⟨h37, h95⟩ := no_wildcard_codes q hq
  rw [ilikeMatches, pctCodes_star, pctCodes_eq_lowerCodes q hq]
  exact likeMatch_contains (lowerCodes q) (lowerCodes s) h37 h95

/-- Boolean form of `ilikeMatches_iff`. -/
theorem ilikeMatches_eq (q s : String) (hq : hasMetachar q = false) :
    ilikeMatches q s = decide (ciContains q s) := by
  by_cases h : ciContains q s
  · simp [h, (ilikeMatches_iff q s hq).mpr h]
  · have hne : ¬ ilikeMatches q s = true := fun hc => h ((ilikeMatches_iff q s hq).mp hc)
    rw [Bool.not_eq_true] at hne
    simp [h, hne]

/-- The empty folded pattern `%%` matches every target. -/
theorem likeMatch_double_wild (s : List Nat) :
    likeMatch (37 :: ([] ++ [37])) s = true := by
  rw [likeMatch_pct]
  exact ⟨s, List.suffix_rfl, likeMatch_wild s⟩

/-- For a metacharacter-free query, the remote row filter agrees with the
specification predicate on every row. -/
theorem taskMatchesQuery_eq_claimMatches (q : String) (hq : hasMetachar q = false)
    (t : Task) : taskMatchesQuery q t = claimMatches q t := by
  have htitle : ilikeMatches q t.title = decide (ciContains q t.title) :=
    ilikeMatches_eq q t.title hq
  cases hd : t.description with
  | some d => simp [taskMatchesQuery, claimMatches, hd, htitle, ilikeMatches_eq q d hq]
  | none =>
    simp only [taskMatchesQuery, claimMatches, hd, Option.getD_none]
    by_cases hnil : lowerCodes q = []
    · have h1 : ilikeMatches q t.title = true := by
        rw [ilikeMatches, pctCodes_star, pctCodes_eq_lowerCodes q hq, hnil]
        exact likeMatch_double_wild _
      have h2 : ciContains q "" := by
        unfold ciContains
        rw [hnil]
        exact List.nil_infix
      simp [h1, h2]
    · have h2 : ¬ ciContains q "" := by
        unfold ciContains
        intro h
        have hempty : lowerCodes "" = ([] : List Nat) := rfl
        rw [hempty] at h
        exact hnil (List.eq_nil_of_infix_nil h)
      simp [htitle, h2]

/-- The row the C4 counterexample stores: its title and description contain
neither `%` nor `_`. -/
def cexTask : Task := ⟨1, "ab", some "", none, 0⟩

/-- Case-insensitive string equality at folded code-point level, the
relation the claim ascribes to the `completed` parameter. -/
def caseInsensitiveEq (a b : String) : Prop := lowerCodes a = lowerCodes b

/-- C10: the `completed` parameter of the `update_task` route is read as
`true` exactly when its value equals `true` case-insensitively; any other
value — and an absent parameter — reads as `false`, and the dispatch route
passes exactly this interpretation to the update call. -/
theorem c10_completed_parameter (v : String) :
    parseCompleted none = false ∧
    (parseCompleted (some v) = true ↔ caseInsensitiveEq v "true") ∧
    parseCompleted (some "1") = false ∧
    parseCompleted (some "yes") = false ∧
    parseCompleted (some "True ") = false ∧
    parseCompleted (some "TRUE") = true ∧
    (∀ (r : Remote) (now : String) (co : Option String),
      (apiDispatch r now ⟨some "update_task", some "1", some "t", none, co⟩).calls =
        [.update 1 "t" "" (parseCompleted co)]) := by
  refine ⟨rfl, ?_, rfl, rfl, rfl, rfl, ?_⟩
  · simp [parseCompleted, caseInsensitiveEq]
  · intro r now co
    have hpy : pyInt "1" = Except.ok 1 := rfl
    rcases hu : update_task r 1 "t" "" (parseCompleted co) with ⟨res, msgs⟩
    cases res <;>
      simp [apiDispatch, truthy, hpy, hu,
        show ("1" : String).isEmpty = false from rfl,
        show ("t" : String).isEmpty = false from rfl]

end TaskManager
